import Mathlib

/-!
Verification development for the CSM-tester repository (Covox Sound Master
diagnostic utility). The repository's surface under `src/` is the header
CSM_TEST.H: all numeric constants below are transcribed from it. The bodies
of the declared functions are not part of `src/`; where a claim rests on the
behaviour of such a function, the definition here is modelled from the
specification and its doc comment says so explicitly.
-/

/-! ## Constants transcribed from src/CSM_TEST.H -/

/-- Scancode for the Esc key (CSM_TEST.H line 37). -/
def KBD_ESC_CODE : Nat := 0x1B

/-- Default Covox Sound Master base address (CSM_TEST.H line 39). -/
def CSM_BASE_DEF : Nat := 0x220

/-- Size of the PCM sample sequence (CSM_TEST.H line 43). -/
def PCM_SEQ_SIZE : Nat := 7

/-- Size of the test sequence for DMA (CSM_TEST.H line 44). -/
def DMA_SEQ_SIZE : Nat := 9056

/-- Byte used for dummy writes (CSM_TEST.H line 45). -/
def DUMMY_WRITE : Nat := 0x0

/-- CSM device offset: number of register in AY. -/
def CSM_AY_REG : Nat := 0x0

/-- CSM device offset: data for AY register. -/
def CSM_AY_DATA : Nat := 0x1

/-- CSM device offset: access port for the 8-bit DAC. -/
def CSM_PCM1 : Nat := 0x2

/-- CSM device offset: IRQ clear. -/
def CSM_IRQ_CLR : Nat := 0x3

/-- CSM device offset: gamepad 1 port. -/
def CSM_GPAD1 : Nat := 0x5

/-- CSM device offset: gamepad 2 port. -/
def CSM_GPAD2 : Nat := 0x4

/-- CSM device offset: second access port for the 8-bit DAC (alias of CSM_PCM1). -/
def CSM_PCM2 : Nat := 0xF

/-- AY register 0x0D: shape of envelope and mode select (for AY8930). -/
def AY_REG_SHAPE_MODE : Nat := 0x0D

/-- AY register 0x0E: parallel I/O port A. -/
def AY_REG_IO_A : Nat := 0x0E

/-- AY register 0x0F: parallel I/O port B. -/
def AY_REG_IO_B : Nat := 0x0F

/-- AY8930 bank A selector value for the shape/mode register. -/
def AY8930_BANK_A : Nat := 0xA0

/-- AY8930 bank B selector value for the shape/mode register. -/
def AY8930_BANK_B : Nat := 0xB0

/-- AY I/O port B bit: downmix stereo to mono in the external mixer. -/
def AY_IOB_MIX_MON : Nat := 2 ^ 4

/-- AY I/O port B bit: disable reaction on DMA ACKs. -/
def AY_IOB_DMA_DIS : Nat := 2 ^ 5

/-- AY I/O port B bit: disable IRQ requests from DMA ACKs. -/
def AY_IOB_IRQ_DIS : Nat := 2 ^ 6

/-- AY I/O port B bit: switch AY channel C to audio output instead of DMA DRQ. -/
def AY_IOB_C_OUT : Nat := 2 ^ 7

/-- Base address for the IRQ command register. -/
def IRQ_CMD_BASE : Nat := 0x20

/-- Base address for the IRQ control register. -/
def IRQ_CTRL_BASE : Nat := 0x21

/-- IRQ3 vector number. -/
def ISA_IRQ3 : Nat := 0x0B

/-- IRQ7 vector number. -/
def ISA_IRQ7 : Nat := 0x0F

/-- Content for the IRQ command register to end an IRQ. -/
def IRQ_ACK_INT : Nat := 0x20

/-- DMA counter register for channel 1. -/
def DMA_03REG_CH1CNT : Nat := 0x03

/-- DMA counter register for channel 3. -/
def DMA_03REG_CH3CNT : Nat := 0x07

/-- DMA start address register for channel 1. -/
def DMA_03REG_CH1ADR : Nat := 0x02

/-- DMA start address register for channel 3. -/
def DMA_03REG_CH3ADR : Nat := 0x06

/-- DMA (single) mask register for channels 0..3. -/
def DMA_03REG_MASK : Nat := 0x0A

/-- DMA mode register for channels 0..3. -/
def DMA_03REG_MODE : Nat := 0x0B

/-- DMA flip-flop reset register for channels 0..3. -/
def DMA_03REG_RST : Nat := 0x0C

/-- Page register for channel 1. -/
def DMA_03REG_CH1PG : Nat := 0x83

/-- Page register for channel 3. -/
def DMA_03REG_CH3PG : Nat := 0x82

/-- Channel-1 selector for the DMA mode and mask registers. -/
def DMA_CH1_SEL : Nat := 0x01

/-- Channel-3 selector for the DMA mode and mask registers. -/
def DMA_CH3_SEL : Nat := 0x03

/-- Mask-enable bit for the DMA single mask register. -/
def DMA_MASK_EN : Nat := 2 ^ 2

/-- DMA mode bit: device will read from memory. -/
def DMA_MODE_RD : Nat := 0x08

/-- DMA mode bit: single transfer. -/
def DMA_MODE_SGL : Nat := 0x40

/-! ## PSG identity enumeration (CSM_TEST.H lines 104-114) -/

/-- Supported AY-compatible ICs, in the declaration order of the C enum. -/
inductive PSGType
  | PSG_NONE
  | PSG_AY8910
  | PSG_AY8930
  | PSG_YM2149
  | PSG_KC89C72
  | PSG_AVR_AY
  | PSG_UNKNOWN
deriving DecidableEq

/-- Numeric value each enumerator receives in the C enum (0 upward). -/
def PSGType.toNat : PSGType → Nat
  | .PSG_NONE => 0
  | .PSG_AY8910 => 1
  | .PSG_AY8930 => 2
  | .PSG_YM2149 => 3
  | .PSG_KC89C72 => 4
  | .PSG_AVR_AY => 5
  | .PSG_UNKNOWN => 6

/-- The seven enumerators in declaration order. -/
def allPSGTypes : List PSGType :=
  [.PSG_NONE, .PSG_AY8910, .PSG_AY8930, .PSG_YM2149,
   .PSG_KC89C72, .PSG_AVR_AY, .PSG_UNKNOWN]

/-! ## Register port layer -/

/-- One hardware I/O write: (port address, byte value). -/
abbrev PortWrite := Nat × Nat

/-- Modelled from the spec: body of `writeAYReg` (declared in CSM_TEST.H line
219, body not under src/). An indexed register write is the register number
to the index port at base+CSM_AY_REG followed by the data byte to the data
port at base+CSM_AY_DATA. -/
def writeAYReg (base reg data : Nat) : List PortWrite :=
  [(base + CSM_AY_REG, reg), (base + CSM_AY_DATA, data)]

/-- Mutable state of the PSG register model: the last-known bank selected
through the shape/mode register for AY8930 extended mode. -/
structure AYState where
  curBank : Nat
deriving DecidableEq

/-- Modelled from the spec: the bank-ensuring step of the PSG register model
(the body owning this state is not under src/). If the target bank differs
from the last-known selection, the bank selector is written to the
shape/mode register; otherwise no write is issued. -/
def ensureBank (base : Nat) (st : AYState) (bank : Nat) : AYState × List PortWrite :=
  if bank = st.curBank then (st, [])
  else (⟨bank⟩, writeAYReg base AY_REG_SHAPE_MODE bank)

/-- Modelled from the spec: a bank-qualified register write in AY8930
extended mode (body not under src/): first ensure the bank selection, then
perform the ordinary indexed access. -/
def writeAYRegBanked (base : Nat) (st : AYState) (bank reg data : Nat) :
    AYState × List PortWrite :=
  let p := ensureBank base st bank
  (p.1, p.2 ++ writeAYReg base reg data)

/-- One hardware bus operation: a port write or a port read. -/
inductive BusOp
  | wr (port val : Nat)
  | rd (port : Nat)
deriving DecidableEq

/-- View a port-write trace as a bus-operation trace. -/
def toBusOps (l : List PortWrite) : List BusOp :=
  l.map (fun pw => .wr pw.1 pw.2)

/-- Modelled from the spec: bus activity of `readAYReg` (declared in
CSM_TEST.H line 218, body not under src/). An indexed register read writes
the register number to the index port, then reads the data port. -/
def readAYReg (base reg : Nat) : List BusOp :=
  [.wr (base + CSM_AY_REG) reg, .rd (base + CSM_AY_DATA)]

/-- Modelled from the spec: a bank-qualified register read in AY8930
extended mode (body not under src/), symmetric to the banked write: first
ensure the bank selection through the shape/mode register, then perform the
ordinary indexed read. -/
def readAYRegBanked (base : Nat) (st : AYState) (bank reg : Nat) :
    AYState × List BusOp :=
  let p := ensureBank base st bank
  (p.1, toBusOps p.2 ++ readAYReg base reg)

/-! ## PSG identity prober -/

/-- Modelled from the spec: fixed floating-bus idle value read from the port
window when no chip is driving the bus (the detection constants are not
under src/). -/
def FLOAT_VAL : Nat := 0xFF

/-- A response sequence is all-floating when every read-back byte equals the
floating-bus idle value. -/
def isFloatingResp (resp : List Nat) : Bool :=
  resp.all (fun b => b == FLOAT_VAL)

/-- One chip-signature rule: a predicate on the scripted read-back sequence
together with the identity it classifies. -/
structure SigRule where
  probe : List Nat → Bool
  ident : PSGType

/-- Modelled from the spec: body of `detectAYType` (declared in CSM_TEST.H
line 222, body not under src/), reframed per the design notes as an ordered
list of (predicate, identity) signature rules evaluated in fixed priority
order. An all-floating response classifies as no chip present; the first
matching rule gives the identity; a responding sequence matching no rule is
the unknown variant. -/
def detectAYType (sigs : List SigRule) (resp : List Nat) : PSGType :=
  if isFloatingResp resp then PSGType.PSG_NONE
  else
    match sigs.find? (fun rl => rl.probe resp) with
    | some rl => rl.ident
    | none => PSGType.PSG_UNKNOWN

/-! ## DMA channel controller -/

/-- A DMA channel descriptor: physical address, page, transfer length in
bytes, and mode byte. -/
structure DMADesc where
  addr : Nat
  page : Nat
  len : Nat
  mode : Nat
deriving DecidableEq

/-- Address register port for a channel selector (0x02 for channel 1, 0x06
for channel 3). -/
def chAdrPort (ch : Nat) : Nat :=
  if ch = DMA_CH3_SEL then DMA_03REG_CH3ADR else DMA_03REG_CH1ADR

/-- Count register port for a channel selector (0x03 for channel 1, 0x07 for
channel 3). -/
def chCntPort (ch : Nat) : Nat :=
  if ch = DMA_CH3_SEL then DMA_03REG_CH3CNT else DMA_03REG_CH1CNT

/-- Page register port for a channel selector (0x83 for channel 1, 0x82 for
channel 3). -/
def chPagePort (ch : Nat) : Nat :=
  if ch = DMA_CH3_SEL then DMA_03REG_CH3PG else DMA_03REG_CH1PG

/-- Modelled from the spec: body of `setupDMAChannel` (declared in
CSM_TEST.H line 237, body not under src/). The port-write trace programs
the channel in the protocol-mandated order: mask the channel, reset the
byte-order flip-flop, address low then high, page register, count low then
high with the count encoded as length minus one, mode byte, unmask. -/
def setupDMAChannel (ch : Nat) (d : DMADesc) : List PortWrite :=
  [(DMA_03REG_MASK, DMA_MASK_EN ||| ch),
   (DMA_03REG_RST, DUMMY_WRITE),
   (chAdrPort ch, d.addr % 256),
   (chAdrPort ch, d.addr / 256 % 256),
   (chPagePort ch, d.page),
   (chCntPort ch, (d.len - 1) % 256),
   (chCntPort ch, (d.len - 1) / 256 % 256),
   (DMA_03REG_MODE, d.mode),
   (DMA_03REG_MASK, ch)]

/-- The standard 8-bit DMA controller ports for channels 1 and 3 used by
this system: address, count, page registers of both channels, plus the
single mask, mode and flip-flop reset registers. -/
def dmaPortSet : List Nat :=
  [DMA_03REG_CH1ADR, DMA_03REG_CH3ADR, DMA_03REG_CH1CNT, DMA_03REG_CH3CNT,
   DMA_03REG_CH1PG, DMA_03REG_CH3PG, DMA_03REG_MASK, DMA_03REG_MODE,
   DMA_03REG_RST]

/-! ## Interrupt vector guard -/

/-- Modelled from the spec: the card is configured for one of two ISA IRQ
lines; the hooked vector number is IRQ7's vector when the configuration
selects IRQ7 and IRQ3's vector otherwise. -/
def hookVector (useIrq7 : Bool) : Nat :=
  if useIrq7 then ISA_IRQ7 else ISA_IRQ3

/-- Modelled from the spec: the installed test interrupt handler increments
the shared counter and acknowledges the interrupt by writing the
end-of-interrupt command to the interrupt controller command register. -/
def testIntHandler (counter : Nat) : Nat × List PortWrite :=
  (counter + 1, [(IRQ_CMD_BASE, IRQ_ACK_INT)])

/-! ## Test orchestrator model -/

/-- Hardware state visible to the diagnostic scenarios: the sixteen standard
PSG register values (I/O port B, whose bit 7 routes channel C, is register
0x0F of this list), the DMA channel configuration, and the hooked interrupt
vector entry. -/
structure HW where
  psg : List Nat
  dma : DMADesc
  vec : Nat
deriving DecidableEq

/-- Hardware state captured at scenario entry: the DMA channel descriptor
and the interrupt vector to restore on every exit path. -/
structure Saved where
  dma : DMADesc
  vec : Nat
deriving DecidableEq

/-- Modelled from the spec: body of `revertDMAChannels` (declared in
CSM_TEST.H line 238, body not under src/): put the DMA channel back to the
configuration captured before the tests. -/
def revertDMAChannels (sv : Saved) (s : HW) : HW :=
  { s with dma := sv.dma }

/-- Modelled from the spec: body of `restoreIntHandlers` (declared in
CSM_TEST.H line 240, body not under src/): put the original IRQ handler
back into the hooked vector. -/
def restoreIntHandlers (sv : Saved) (s : HW) : HW :=
  { s with vec := sv.vec }

/-- Modelled from the spec: body of `resetAY` (declared in CSM_TEST.H line
220, body not under src/): write 0x00 to every standard register, giving
the quiescent state. -/
def resetAY (s : HW) : HW :=
  { s with psg := List.replicate 16 0 }

/-- The quiescent PSG register file produced by resetAY. -/
def quiescentPSG : List Nat := List.replicate 16 0

/-- Handler reference installed during the PCM-via-DMA test. -/
def testHandlerRef : Nat := 0xDEAD

/-- Modelled from the spec: descriptor the PCM-via-DMA test programs into
the DMA channel (PCM test buffer streamed as a single-transfer read from
memory). -/
def pcmTestDesc : DMADesc :=
  ⟨0x1234, 0x0, DMA_SEQ_SIZE, DMA_MODE_RD ||| DMA_MODE_SGL⟩

/-- Modelled from the spec: byte the PCM-via-DMA test writes to I/O port B
to route channel C to DMA requests (AY_IOB_C_OUT cleared) with DMA ACK
reaction and IRQ requests enabled. -/
def DMA_ROUTE_VAL : Nat := 0x00

/-- One scenario action over the hardware state. -/
inductive Act
  | ayW (reg val : Nat)
  | dmaProg
  | dmaRevert
  | vecInstall
  | vecRestore
  | ayReset
  | gpRead (ofs : Nat)
  | portRead (ofs : Nat)
  | stream
deriving DecidableEq

/-- Semantics of one action: reads do not change state; the teardown
actions restore from the captured snapshot. -/
def applyAct (sv : Saved) (s : HW) : Act → HW
  | .ayW reg val => { s with psg := s.psg.set reg val }
  | .dmaProg => { s with dma := pcmTestDesc }
  | .dmaRevert => revertDMAChannels sv s
  | .vecInstall => { s with vec := testHandlerRef }
  | .vecRestore => restoreIntHandlers sv s
  | .ayReset => resetAY s
  | .gpRead _ => s
  | .portRead _ => s
  | .stream => s

/-- Run a list of actions left to right. -/
def runActs (sv : Saved) (s : HW) (l : List Act) : HW :=
  l.foldl (applyAct sv) s

/-- The four named diagnostic scenarios. -/
inductive Scenario
  | toneNoise
  | pcmDMA
  | gamepad
  | addrSweep
deriving DecidableEq

/-- Modelled from the spec: the work phase of the tone/noise test for one
channel: set frequency fine and rough, set level, enable the mixer bit,
then disable the mixer again before moving on. -/
def toneChannelActs (ch : Nat) : List Act :=
  [.ayW (2 * ch) 0x55, .ayW (2 * ch + 1) 0x01, .ayW (8 + ch) 0x0F,
   .ayW 0x7 (63 - 2 ^ ch), .ayW 0x7 63, .ayW (8 + ch) 0x00]

/-- Modelled from the spec: the complete work phase of each scenario, before
teardown. The tone/noise test exercises the three channels in turn; the
PCM-via-DMA test programs the DMA channel, installs the interrupt guard,
routes channel C to DMA on I/O port B and streams; the gamepad test polls
the two gamepad ports; the address sweep reads all sixteen window offsets
and mutates nothing. -/
def fullWork : Scenario → List Act
  | .toneNoise => toneChannelActs 0 ++ toneChannelActs 1 ++ toneChannelActs 2
  | .pcmDMA => [.dmaProg, .vecInstall, .ayW AY_REG_IO_B DMA_ROUTE_VAL, .stream]
  | .gamepad => [.gpRead CSM_GPAD1, .gpRead CSM_GPAD2]
  | .addrSweep => (List.range 16).map .portRead

/-- Teardown actions run on every exit path, cancelled or not: restore the
DMA channel via revertDMAChannels, restore the vectors via
restoreIntHandlers, and resetAY the PSG registers. -/
def teardownActs : List Act := [.dmaRevert, .vecRestore, .ayReset]

/-- Modelled from the spec: the action trace of a scenario when the Esc key
cancels it after `cancel` work steps (none means the scenario runs to
completion); the teardown actions follow the executed work steps
unconditionally. -/
def scenarioTrace (sc : Scenario) (cancel : Option Nat) : List Act :=
  (fullWork sc).take (cancel.getD (fullWork sc).length) ++ teardownActs

/-- Modelled from the spec: run a scenario from hardware state `s`, with an
optional cancellation point; the snapshot for restoration is captured at
entry. Returns the final hardware state and the action trace. -/
def runScenario (sc : Scenario) (s : HW) (cancel : Option Nat) : HW × List Act :=
  (runActs ⟨s.dma, s.vec⟩ s (scenarioTrace sc cancel), scenarioTrace sc cancel)

/-- A diagnostic session: the identity produced once by the prober plus the
hardware state. -/
structure Session where
  identity : PSGType
  hw : HW
deriving DecidableEq

/-- The prober runs once at session start and fixes the identity. -/
def mkSession (sigs : List SigRule) (resp : List Nat) (hw : HW) : Session :=
  ⟨detectAYType sigs resp, hw⟩

/-- Running a scenario in a session only touches the hardware state. -/
def runSession (sc : Scenario) (cancel : Option Nat) (s : Session) : Session :=
  ⟨s.identity, (runScenario sc s.hw cancel).1⟩

/-! ## Theorems -/

/-- Claim C5: the register port window is the configurable base address
defaulting to 0x220 plus sixteen fixed offsets; the PSG index register is at
offset 0x0, the PSG data register at 0x1, the PCM DAC at the two aliased
offsets 0x2 and 0xF, the IRQ-acknowledge register at 0x3, and the gamepad
read registers at offsets 0x5 and 0x4; every named offset lies inside the
sixteen-offset window. -/
theorem port_window_layout :
    CSM_BASE_DEF = 0x220 ∧ CSM_AY_REG = 0x0 ∧ CSM_AY_DATA = 0x1 ∧
    CSM_PCM1 = 0x2 ∧ CSM_PCM2 = 0xF ∧ CSM_IRQ_CLR = 0x3 ∧
    CSM_GPAD1 = 0x5 ∧ CSM_GPAD2 = 0x4 ∧
    CSM_AY_REG < 16 ∧ CSM_AY_DATA < 16 ∧ CSM_PCM1 < 16 ∧ CSM_PCM2 < 16 ∧
    CSM_IRQ_CLR < 16 ∧ CSM_GPAD1 < 16 ∧ CSM_GPAD2 < 16 := by
  decide

/-- Claim C10: the two gamepad read registers are numbered inversely to
their window offsets: gamepad port 1 reads at base+0x5 and gamepad port 2
at base+0x4, so the port-1 offset is strictly greater than the port-2
offset. -/
theorem gamepad_offsets_inverted :
    CSM_GPAD1 = 0x5 ∧ CSM_GPAD2 = 0x4 ∧ CSM_GPAD2 < CSM_GPAD1 := by
  decide

/-- Claim C7: the two candidate hardware interrupt lines are ISA IRQ3 at
vector 0x0B and ISA IRQ7 at vector 0x0F; whichever the configuration
selects, the hooked vector is one of those two; the installed handler
acknowledges by writing the end-of-interrupt command 0x20 to the interrupt
controller command register at port 0x20. -/
theorem irq_lines_and_ack (cfg : Bool) (c : Nat) :
    ISA_IRQ3 = 0x0B ∧ ISA_IRQ7 = 0x0F ∧
    (hookVector cfg = ISA_IRQ3 ∨ hookVector cfg = ISA_IRQ7) ∧
    IRQ_CMD_BASE = 0x20 ∧ IRQ_ACK_INT = 0x20 ∧
    (testIntHandler c).2 = [(IRQ_CMD_BASE, IRQ_ACK_INT)] := by
  cases cfg
  · exact ⟨rfl, rfl, Or.inl rfl, rfl, rfl, rfl⟩
  · exact ⟨rfl, rfl, Or.inr rfl, rfl, rfl, rfl⟩

/-- Claim C9: the PSG identity type has exactly the seven values no chip,
AY8910, AY8930, YM2149, KC89C72, AVR emulator and unknown, in that
declaration order with consecutive numeric values; the identity is produced
once per session by the prober and no scenario run modifies it. -/
theorem psg_identity_enum (sigs : List SigRule) (resp : List Nat) (hw : HW)
    (sc : Scenario) (cancel : Option Nat) (s : Session) :
    PSGType.toNat .PSG_NONE = 0 ∧ PSGType.toNat .PSG_AY8910 = 1 ∧
    PSGType.toNat .PSG_AY8930 = 2 ∧ PSGType.toNat .PSG_YM2149 = 3 ∧
    PSGType.toNat .PSG_KC89C72 = 4 ∧ PSGType.toNat .PSG_AVR_AY = 5 ∧
    PSGType.toNat .PSG_UNKNOWN = 6 ∧
    allPSGTypes.length = 7 ∧ (allPSGTypes.map PSGType.toNat).Nodup ∧
    (∀ t : PSGType, t ∈ allPSGTypes) ∧
    (mkSession sigs resp hw).identity = detectAYType sigs resp ∧
    (runSession sc cancel s).identity = s.identity := by
  refine ⟨rfl, rfl, rfl, rfl, rfl, rfl, rfl, rfl, by decide, ?_, rfl, rfl⟩
  intro t
  cases t <;> simp [allPSGTypes]

/-- Claim C2: setupDMAChannel emits exactly, in order: mask the channel,
reset the byte-order flip-flop, address low then high byte, page register,
count low then high byte with the count encoded as transfer length minus
one, mode byte, and finally unmask; and no write to the mode register or to
the channel count register precedes the masking write. -/
theorem setupDMAChannel_order (ch : Nat) (d : DMADesc) :
    (setupDMAChannel ch d).length = 9 ∧
    (setupDMAChannel ch d).get? 0 = some (DMA_03REG_MASK, DMA_MASK_EN ||| ch) ∧
    (setupDMAChannel ch d).get? 1 = some (DMA_03REG_RST, DUMMY_WRITE) ∧
    (setupDMAChannel ch d).get? 2 = some (chAdrPort ch, d.addr % 256) ∧
    (setupDMAChannel ch d).get? 3 = some (chAdrPort ch, d.addr / 256 % 256) ∧
    (setupDMAChannel ch d).get? 4 = some (chPagePort ch, d.page) ∧
    (setupDMAChannel ch d).get? 5 = some (chCntPort ch, (d.len - 1) % 256) ∧
    (setupDMAChannel ch d).get? 6 = some (chCntPort ch, (d.len - 1) / 256 % 256) ∧
    (setupDMAChannel ch d).get? 7 = some (DMA_03REG_MODE, d.mode) ∧
    (setupDMAChannel ch d).get? 8 = some (DMA_03REG_MASK, ch) ∧
    (∀ i, ((setupDMAChannel ch d).get? i).map Prod.fst = some DMA_03REG_MODE ∨
        ((setupDMAChannel ch d).get? i).map Prod.fst = some (chCntPort ch) →
        0 < i) := by
  refine ⟨rfl, rfl, rfl, rfl, rfl, rfl, rfl, rfl, rfl, rfl, ?_⟩
  intro i hp
  cases i with
  | zero =>
      exfalso
      rcases hp with hp | hp
      · have hq : DMA_03REG_MASK = DMA_03REG_MODE := Option.some.inj hp
        exact absurd hq (by decide)
      · have hq : DMA_03REG_MASK = chCntPort ch := Option.some.inj hp
        unfold chCntPort at hq
        by_cases hc : ch = DMA_CH3_SEL
        · rw [if_pos hc] at hq
          exact absurd hq (by decide)
        · rw [if_neg hc] at hq
          exact absurd hq (by decide)
  | succ n => exact Nat.succ_pos n

/-- Demonstration descriptor for the DMA witnesses: the 9056-byte PCM test
buffer streamed on channel 1 as a single read-from-memory transfer. -/
def demoDesc : DMADesc := ⟨0x2345, 0x1, DMA_SEQ_SIZE, DMA_MODE_RD ||| DMA_MODE_SGL⟩

/-- Witness for setupDMAChannel_order at channel 1 and a concrete
descriptor: the first write masks the channel and the mode write sits at a
strictly positive index. -/
theorem setupDMAChannel_order_witness :
    (setupDMAChannel DMA_CH1_SEL demoDesc).get? 0 =
      some (DMA_03REG_MASK, DMA_MASK_EN ||| DMA_CH1_SEL) ∧ 0 < 7 :=
  ⟨(setupDMAChannel_order DMA_CH1_SEL demoDesc).2.1,
   (setupDMAChannel_order DMA_CH1_SEL demoDesc).2.2.2.2.2.2.2.2.2.2 7
     (Or.inl rfl)⟩

/-- Claim C6: the DMA controller is addressed only through the standard
8-bit controller ports for channels 1 and 3: address registers 0x02 and
0x06, count registers 0x03 and 0x07, page registers 0x83 and 0x82, the
single mask register 0x0A, the mode register 0x0B and the flip-flop reset
register 0x0C; every port the channel-programming trace touches is in that
set. -/
theorem dma_ports_standard (ch : Nat) (d : DMADesc)
    (h : ch = DMA_CH1_SEL ∨ ch = DMA_CH3_SEL) :
    DMA_03REG_CH1ADR = 0x02 ∧ DMA_03REG_CH3ADR = 0x06 ∧
    DMA_03REG_CH1CNT = 0x03 ∧ DMA_03REG_CH3CNT = 0x07 ∧
    DMA_03REG_CH1PG = 0x83 ∧ DMA_03REG_CH3PG = 0x82 ∧
    DMA_03REG_MASK = 0x0A ∧ DMA_03REG_MODE = 0x0B ∧ DMA_03REG_RST = 0x0C ∧
    (setupDMAChannel ch d).all (fun pw => dmaPortSet.contains pw.1) = true := by
  rcases h with h | h <;> subst h <;>
    exact ⟨rfl, rfl, rfl, rfl, rfl, rfl, rfl, rfl, rfl, rfl⟩

/-- Witness for dma_ports_standard at channel 1 and a concrete descriptor. -/
theorem dma_ports_standard_witness :
    DMA_03REG_MASK = 0x0A ∧
    (setupDMAChannel DMA_CH1_SEL demoDesc).all
      (fun pw => dmaPortSet.contains pw.1) = true :=
  ⟨(dma_ports_standard DMA_CH1_SEL demoDesc (Or.inl rfl)).2.2.2.2.2.2.1,
   (dma_ports_standard DMA_CH1_SEL demoDesc (Or.inl rfl)).2.2.2.2.2.2.2.2.2⟩

/-- Claim C3: in extended AY8930 mode every bank-qualified register access,
write or read, goes through the register model, which owns the currently
selected bank as its own mutable state: when the target bank differs from
the last-known selection the bank selector (0xA0 for bank A, 0xB0 for bank
B) is written to the shape/mode register 0x0D before the indexed access,
and when the target bank already matches no selector write is issued; after
either access kind the tracked bank equals the target bank. -/
theorem bank_switch_protocol (base : Nat) (st : AYState) (bank reg v : Nat) :
    AY8930_BANK_A = 0xA0 ∧ AY8930_BANK_B = 0xB0 ∧ AY_REG_SHAPE_MODE = 0x0D ∧
    (writeAYRegBanked base st bank reg v).1.curBank = bank ∧
    (readAYRegBanked base st bank reg).1.curBank = bank ∧
    (bank = st.curBank →
      (writeAYRegBanked base st bank reg v).2 = writeAYReg base reg v ∧
      (readAYRegBanked base st bank reg).2 = readAYReg base reg) ∧
    (bank ≠ st.curBank →
      (writeAYRegBanked base st bank reg v).2 =
        writeAYReg base AY_REG_SHAPE_MODE bank ++ writeAYReg base reg v ∧
      (readAYRegBanked base st bank reg).2 =
        toBusOps (writeAYReg base AY_REG_SHAPE_MODE bank) ++ readAYReg base reg) := by
  by_cases hb : bank = st.curBank
  · refine ⟨rfl, rfl, rfl, ?_, ?_, fun _ => ⟨?_, ?_⟩, fun hn => absurd hb hn⟩
    · simp [writeAYRegBanked, ensureBank, hb]
    · simp [readAYRegBanked, ensureBank, hb]
    · simp [writeAYRegBanked, ensureBank, hb]
    · simp [readAYRegBanked, ensureBank, hb, toBusOps]
  · refine ⟨rfl, rfl, rfl, ?_, ?_, fun he => absurd he hb, fun _ => ⟨?_, ?_⟩⟩
    · simp [writeAYRegBanked, ensureBank, hb]
    · simp [readAYRegBanked, ensureBank, hb]
    · simp [writeAYRegBanked, ensureBank, hb]
    · simp [readAYRegBanked, ensureBank, hb]

/-- Witness for bank_switch_protocol: from bank A selected, a bank-B
qualified write to register 8 and a bank-B qualified read of register 8
each issue the selector write to the shape/mode register before the
indexed access and update the tracked bank. -/
theorem bank_switch_protocol_witness :
    (writeAYRegBanked CSM_BASE_DEF ⟨AY8930_BANK_A⟩ AY8930_BANK_B 0x08 0x1F).1.curBank
      = AY8930_BANK_B ∧
    (readAYRegBanked CSM_BASE_DEF ⟨AY8930_BANK_A⟩ AY8930_BANK_B 0x08).1.curBank
      = AY8930_BANK_B ∧
    (writeAYRegBanked CSM_BASE_DEF ⟨AY8930_BANK_A⟩ AY8930_BANK_B 0x08 0x1F).2 =
      writeAYReg CSM_BASE_DEF AY_REG_SHAPE_MODE AY8930_BANK_B ++
        writeAYReg CSM_BASE_DEF 0x08 0x1F ∧
    (readAYRegBanked CSM_BASE_DEF ⟨AY8930_BANK_A⟩ AY8930_BANK_B 0x08).2 =
      toBusOps (writeAYReg CSM_BASE_DEF AY_REG_SHAPE_MODE AY8930_BANK_B) ++
        readAYReg CSM_BASE_DEF 0x08 :=
  ⟨(bank_switch_protocol CSM_BASE_DEF ⟨AY8930_BANK_A⟩ AY8930_BANK_B 0x08 0x1F).2.2.2.1,
   (bank_switch_protocol CSM_BASE_DEF ⟨AY8930_BANK_A⟩ AY8930_BANK_B 0x08 0x1F).2.2.2.2.1,
   ((bank_switch_protocol CSM_BASE_DEF ⟨AY8930_BANK_A⟩ AY8930_BANK_B 0x08 0x1F).2.2.2.2.2.2
     (by decide)).1,
   ((bank_switch_protocol CSM_BASE_DEF ⟨AY8930_BANK_A⟩ AY8930_BANK_B 0x08 0x1F).2.2.2.2.2.2
     (by decide)).2⟩

/-- Claim C4: detectAYType is a deterministic function of the scripted
probe-response sequence; an all-floating response sequence classifies as no
chip present, a responding sequence matched by a signature rule (the first
matching rule in priority order) classifies as that rule's chip identity,
and a responding sequence matching no known signature classifies as the
unknown variant. -/
theorem detectAYType_classification (sigs : List SigRule) (r1 r2 : List Nat)
    (rl : SigRule) :
    (r1 = r2 → detectAYType sigs r1 = detectAYType sigs r2) ∧
    (isFloatingResp r1 = true → detectAYType sigs r1 = PSGType.PSG_NONE) ∧
    (isFloatingResp r1 = false →
      sigs.find? (fun q => q.probe r1) = some rl →
      detectAYType sigs r1 = rl.ident) ∧
    (isFloatingResp r1 = false →
      (∀ q ∈ sigs, q.probe r1 = false) →
      detectAYType sigs r1 = PSGType.PSG_UNKNOWN) := by
  refine ⟨fun h => by rw [h], fun hf => by simp [detectAYType, hf], ?_, ?_⟩
  · intro hf hfind
    simp [detectAYType, hf, hfind]
  · intro hf hnone
    have hn : sigs.find? (fun q => q.probe r1) = none := by
      rw [List.find?_eq_none]
      intro q hq
      simp [hnone q hq]
    simp [detectAYType, hf, hn]

/-- Demonstration signature rule: a chip whose first probe byte reads back
0x1F classifies as the AY-3-8910. -/
def demoRule : SigRule := ⟨fun r => r.head? == some 0x1F, PSGType.PSG_AY8910⟩

/-- Demonstration signature table with the single demonstration rule. -/
def demoSigs : List SigRule := [demoRule]

/-- Witness for detectAYType_classification on the demonstration table: a
floating sequence gives no chip, a matching sequence gives the rule's chip,
an unmatched responding sequence gives the unknown variant, and a repeated
run is identical. -/
theorem detectAYType_classification_witness :
    detectAYType demoSigs [0xFF, 0xFF] = PSGType.PSG_NONE ∧
    detectAYType demoSigs [0x1F, 0x00] = PSGType.PSG_AY8910 ∧
    detectAYType demoSigs [0x00, 0x00] = PSGType.PSG_UNKNOWN ∧
    detectAYType demoSigs [0x1F, 0x00] = detectAYType demoSigs [0x1F, 0x00] :=
  ⟨(detectAYType_classification demoSigs [0xFF, 0xFF] [0xFF, 0xFF] demoRule).2.1 rfl,
   (detectAYType_classification demoSigs [0x1F, 0x00] [0x1F, 0x00] demoRule).2.2.1
     rfl rfl,
   (detectAYType_classification demoSigs [0x00, 0x00] [0x00, 0x00] demoRule).2.2.2
     rfl (by decide),
   (detectAYType_classification demoSigs [0x1F, 0x00] [0x1F, 0x00] demoRule).1 rfl⟩

/-- Claim C1: every diagnostic scenario, for every exit path including
cancellation after any number of work steps, leaves the hardware state
(PSG registers, DMA channel descriptor, hooked interrupt vector, I/O
routing bits held in the PSG register file) exactly as captured before the
scenario ran, given that the scenario starts from the quiescent PSG state;
and the cancelled run ends with the very same teardown action sequence
(revertDMAChannels, restoreIntHandlers, resetAY) as the completed run. -/
theorem scenario_frame_effect (sc : Scenario) (s : HW) (cancel : Option Nat)
    (h : s.psg = quiescentPSG) :
    (runScenario sc s cancel).1 = s ∧
    List.IsSuffix teardownActs (runScenario sc s cancel).2 ∧
    List.IsSuffix teardownActs (runScenario sc s none).2 := by
  obtain ⟨psg, dma, vec⟩ := s
  simp only [quiescentPSG] at h
  refine ⟨?_, ?_, ?_⟩
  · simp only [runScenario, scenarioTrace, runActs, List.foldl_append,
      teardownActs, List.foldl_cons, List.foldl_nil, applyAct,
      revertDMAChannels, restoreIntHandlers, resetAY]
    simp [h]
  · exact ⟨(fullWork sc).take (cancel.getD (fullWork sc).length), rfl⟩
  · exact ⟨(fullWork sc).take (fullWork sc).length, rfl⟩

/-- Demonstration hardware state for the scenario witnesses: quiescent PSG
registers, an arbitrary pre-test DMA configuration and original vector. -/
def demoHW : HW := ⟨quiescentPSG, ⟨0x4000, 0x2, 0x100, 0x44⟩, 0xBEEF⟩

/-- Witness for scenario_frame_effect: the PCM-via-DMA scenario cancelled
after one work step restores the demonstration hardware state and ends with
the same teardown actions as the completed run. -/
theorem scenario_frame_effect_witness :
    (runScenario Scenario.pcmDMA demoHW (some 1)).1 = demoHW ∧
    List.IsSuffix teardownActs (runScenario Scenario.pcmDMA demoHW (some 1)).2 ∧
    List.IsSuffix teardownActs (runScenario Scenario.pcmDMA demoHW none).2 :=
  scenario_frame_effect Scenario.pcmDMA demoHW (some 1) rfl

/-- Claim C8: the PCM-via-DMA test writes the channel-C routing value to the
I/O port B register 0x0F before the streaming step and the teardown resetAY
after the streaming step returns the register to its quiescent value; the
routing control AY_IOB_C_OUT is bit 7 of I/O port B, the bit that when set
routes channel C to audio output instead of DMA requests. -/
theorem pcm_routing_bit (s : HW) :
    AY_REG_IO_B = 0x0F ∧ AY_IOB_C_OUT = 2 ^ 7 ∧
    (scenarioTrace Scenario.pcmDMA none).get? 2 =
      some (Act.ayW AY_REG_IO_B DMA_ROUTE_VAL) ∧
    (scenarioTrace Scenario.pcmDMA none).get? 3 = some Act.stream ∧
    (scenarioTrace Scenario.pcmDMA none).get? 6 = some Act.ayReset ∧
    ((runScenario Scenario.pcmDMA s none).1).psg.get? AY_REG_IO_B = some 0 := by
  refine ⟨rfl, rfl, rfl, rfl, rfl, ?_⟩
  obtain ⟨psg, dma, vec⟩ := s
  simp only [runScenario, scenarioTrace, runActs, List.foldl_append,
    teardownActs, List.foldl_cons, List.foldl_nil, applyAct,
    revertDMAChannels, restoreIntHandlers, resetAY]
  decide
